import Mathlib

/-!
Verification development for the processing-job orchestration module
(`src/sagemaker/processor.py`). The Python source is shallowly embedded:
pure request-building code becomes Lean functions, Python exceptions become
`Except PyError`, remote collaborators (object-storage upload, the
job-submission service, the filesystem) are passed in explicitly, and the
side effects performed by a run are collected in an explicit effect trace.
-/

/-- Kinds of Python exceptions raised by the embedded code. -/
inductive PyError where
  | valueError (msg : String)
  | typeError (msg : String)
  | attributeError (msg : String)
  deriving DecidableEq, Repr

/-- Values occurring in a request payload: the embedding of the Python
dictionaries handed to the remote-service collaborator. -/
inductive ReqVal where
  | str (s : String)
  | num (n : Nat)
  | null
  | strList (l : List String)
  | dict (entries : List (String × ReqVal))
  | list (elems : List ReqVal)

/-- Looks a key up in a (string-keyed) payload dictionary, first match wins;
the embedded dictionaries never repeat a key. -/
def lookupKey (l : List (String × ReqVal)) (k : String) : Option ReqVal :=
  match l with
  | [] => none
  | (k1, v) :: rest => if k1 = k then some v else lookupKey rest k

/-- True when a payload dictionary carries the key `k`. -/
def reqHasKey (v : ReqVal) (k : String) : Bool :=
  match v with
  | ReqVal.dict l => l.any (fun p => p.1 = k)
  | _ => false

/-- Fetches the sub-value stored under `k` in a payload dictionary. -/
def reqGet (v : ReqVal) (k : String) : Option ReqVal :=
  match v with
  | ReqVal.dict l => lookupKey l k
  | _ => none

/-- Embeds an optional Python string (possibly `None`) as a payload value. -/
def optStr : Option String → ReqVal
  | some s => ReqVal.str s
  | none => ReqVal.null

/-- True when the pattern list is a prefix of the first list. -/
def charsStartWith : List Char → List Char → Bool
  | _, [] => true
  | [], _ :: _ => false
  | c :: cs, p :: ps => c = p && charsStartWith cs ps

/-- Embedding of `str.startswith` on Python strings. -/
def strStartsWith (s pat : String) : Bool :=
  charsStartWith s.data pat.data

/-- Embedding of `str.endswith` on Python strings. -/
def strEndsWith (s pat : String) : Bool :=
  charsStartWith s.data.reverse pat.data.reverse

/-- Embedding of `posixpath.join` on two components: an absolute second
component discards the first, otherwise a single separator is inserted
unless the first component is empty or already ends in one. -/
def osJoin2 (a b : String) : String :=
  if strStartsWith b "/" then b
  else if a = "" || strEndsWith a "/" then a ++ b
  else a ++ "/" ++ b

/-- Embedding of `os.path.join` folded over a component list. -/
def osJoin : List String → String
  | [] => ""
  | p :: rest => rest.foldl osJoin2 p

/-- Characters admissible in a URI scheme after the leading letter,
as in `urllib.parse`. -/
def isSchemeChar (c : Char) : Bool :=
  c.isAlphanum || c = '+' || c = '-' || c = '.'

/-- The characters preceding the first colon of the list, when a colon occurs. -/
def takeUntilColon : List Char → Option (List Char)
  | [] => none
  | c :: cs =>
    if c = ':' then some []
    else
      match takeUntilColon cs with
      | none => none
      | some pre => some (c :: pre)

/-- Embedding of `urlparse(url).scheme`: the lowercased text before the first
colon when it is nonempty, starts with a letter and uses only scheme
characters; otherwise the empty string. -/
def uriScheme (url : String) : String :=
  match takeUntilColon url.data with
  | none => ""
  | some [] => ""
  | some (c :: cs) =>
    if c.isAlpha && cs.all isSchemeChar then String.mk ((c :: cs).map Char.toLower)
    else ""

/-- The characters after the last slash of the list. -/
def basenameChars : List Char → List Char
  | [] => []
  | c :: cs =>
    if cs.contains '/' then basenameChars cs
    else if c = '/' then cs
    else c :: cs

/-- Embedding of `os.path.basename`: the final path segment. -/
def basename (p : String) : String :=
  String.mk (basenameChars p.data)

/-- The index of the last occurrence of `c`, scanning from offset `i`. -/
def lastIndexOfAux (c : Char) : List Char → Nat → Option Nat
  | [], _ => none
  | x :: xs, i =>
    match lastIndexOfAux c xs (i + 1) with
    | some j => some j
    | none => if x = c then some i else none

/-- The index of the last occurrence of `c` in the list, when any. -/
def lastIndexOf (c : Char) (cs : List Char) : Option Nat :=
  lastIndexOfAux c cs 0

/-- Embedding of the extension component of `os.path.splitext`: the suffix
from the last dot, provided that dot lies after the last separator and some
non-dot character precedes it within the final path component. -/
def splitextExt (p : String) : String :=
  let cs := p.data
  match lastIndexOf '.' cs with
  | none => ""
  | some d =>
    let startIdx : Nat :=
      match lastIndexOf '/' cs with
      | none => 0
      | some s => s + 1
    let afterSep : Bool :=
      match lastIndexOf '/' cs with
      | none => true
      | some s => decide (s < d)
    if afterSep then
      let hasStem : Bool :=
        (List.range cs.length).any
          (fun j => decide (startIdx ≤ j) && decide (j < d) && (cs.getD j '.' != '.'))
      if hasStem then String.mk (cs.drop d) else ""
    else ""

/-- Modelled from the spec: the data-granularity enumeration (single file vs
manifest) of the `s3` module, which is not under `src/`. -/
inductive S3DataType where
  | MANIFEST_FILE
  | S3_PREFIX
  deriving DecidableEq, Repr

/-- Modelled from the spec: wire value of the data-granularity constant. -/
def S3DataType.value : S3DataType → String
  | MANIFEST_FILE => "ManifestFile"
  | S3_PREFIX => "S3Prefix"

/-- Modelled from the spec: the transfer-mode enumeration (batch vs
streaming) of the `s3` module, which is not under `src/`. -/
inductive S3InputMode where
  | FILE
  | PIPE
  deriving DecidableEq, Repr

/-- Modelled from the spec: wire value of the transfer-mode constant. -/
def S3InputMode.value : S3InputMode → String
  | FILE => "File"
  | PIPE => "Pipe"

/-- Modelled from the spec: the download-mode enumeration (eager vs
continuous) of the `s3` module, which is not under `src/`. -/
inductive S3DownloadMode where
  | START_OF_JOB
  | CONTINUOUS
  deriving DecidableEq, Repr

/-- Modelled from the spec: wire value of the download-mode constant. -/
def S3DownloadMode.value : S3DownloadMode → String
  | START_OF_JOB => "StartOfJob"
  | CONTINUOUS => "Continuous"

/-- Modelled from the spec: the distribution-policy enumeration (full
replication vs sharded) of the `s3` module, which is not under `src/`. -/
inductive S3DataDistributionType where
  | FULLY_REPLICATED
  | SHARDED_BY_S3_KEY
  deriving DecidableEq, Repr

/-- Modelled from the spec: wire value of the distribution constant. -/
def S3DataDistributionType.value : S3DataDistributionType → String
  | FULLY_REPLICATED => "FullyReplicated"
  | SHARDED_BY_S3_KEY => "ShardedByS3Key"

/-- Modelled from the spec: the compression-policy enumeration (none vs gzip)
of the `s3` module, which is not under `src/`. -/
inductive S3CompressionType where
  | NONE
  | GZIP
  deriving DecidableEq, Repr

/-- Modelled from the spec: wire value of the compression constant. -/
def S3CompressionType.value : S3CompressionType → String
  | NONE => "None"
  | GZIP => "Gzip"

/-- Modelled from the spec: the upload-mode enumeration (eager vs continuous)
of the `s3` module, which is not under `src/`. -/
inductive S3UploadMode where
  | END_OF_JOB
  | CONTINUOUS
  deriving DecidableEq, Repr

/-- Modelled from the spec: wire value of the upload-mode constant. -/
def S3UploadMode.value : S3UploadMode → String
  | END_OF_JOB => "EndOfJob"
  | CONTINUOUS => "Continuous"

/-- Embedding of `FileInput`: an input descriptor. The compression attribute
is optional because the Python attribute may be `None` as well as an
enumeration constant (construction defaults it to the `NONE` constant). -/
structure FileInput where
  source : String
  destination : String
  input_name : Option String
  s3_data_type : S3DataType
  s3_input_mode : S3InputMode
  s3_download_mode : S3DownloadMode
  s3_data_distribution_type : S3DataDistributionType
  s3_compression_type : Option S3CompressionType
  deriving DecidableEq, Repr

/-- Embedding of `FileOutput`: an output descriptor. -/
structure FileOutput where
  source : String
  destination : String
  output_name : Option String
  kms_key_id : Option String
  s3_upload_mode : S3UploadMode
  deriving DecidableEq, Repr

/-- Embedding of `FileInput.to_request_dict`: builds the input request
fragment, rejecting gzip compression with a non-Pipe input mode, and adds
the compression field whenever the attribute is not `None`. -/
def FileInput.to_request_dict (f : FileInput) : Except PyError ReqVal :=
  let s3Input : List (String × ReqVal) :=
    [("S3Uri", ReqVal.str f.source),
     ("LocalPath", ReqVal.str f.destination),
     ("S3DataType", ReqVal.str f.s3_data_type.value),
     ("S3InputMode", ReqVal.str f.s3_input_mode.value),
     ("S3DownloadMode", ReqVal.str f.s3_download_mode.value),
     ("S3DataDistributionType", ReqVal.str f.s3_data_distribution_type.value)]
  if f.s3_compression_type = some S3CompressionType.GZIP ∧ ¬f.s3_input_mode = S3InputMode.PIPE then
    Except.error (PyError.valueError ("Data can only be gzipped when the input mode is Pipe."))
  else
    let s3Input :=
      match f.s3_compression_type with
      | some c => s3Input ++ [("S3CompressionType", ReqVal.str c.value)]
      | none => s3Input
    Except.ok (ReqVal.dict [("InputName", optStr f.input_name), ("S3Input", ReqVal.dict s3Input)])

/-- Embedding of `FileOutput.to_request_dict`: builds the output request
fragment, adding the KMS key field only when the attribute is set. -/
def FileOutput.to_request_dict (o : FileOutput) : ReqVal :=
  let s3Output : List (String × ReqVal) :=
    [("S3Uri", ReqVal.str o.destination),
     ("LocalPath", ReqVal.str o.source),
     ("S3UploadMode", ReqVal.str o.s3_upload_mode.value)]
  let s3Output :=
    match o.kms_key_id with
    | some k => s3Output ++ [("KmsKeyId", ReqVal.str k)]
    | none => s3Output
  ReqVal.dict [("OutputName", optStr o.output_name), ("S3Output", ReqVal.dict s3Output)]

/-- C1: serializing an input descriptor fails with a validation error exactly
when its compression policy is gzip while its input mode is not Pipe, and a
descriptor with gzip compression and Pipe mode serializes successfully with
the compression field present in the `S3Input` fragment. -/
theorem claim_C1 (f : FileInput) :
    ((∃ e, FileInput.to_request_dict f = Except.error e) ↔
      (f.s3_compression_type = some S3CompressionType.GZIP ∧ f.s3_input_mode ≠ S3InputMode.PIPE)) ∧
    (f.s3_compression_type = some S3CompressionType.GZIP → f.s3_input_mode = S3InputMode.PIPE →
      ∃ v, FileInput.to_request_dict f = Except.ok v ∧
        ∃ inner, reqGet v "S3Input" = some inner ∧ reqHasKey inner "S3CompressionType" = true) := by
  constructor
  · constructor
    · intro ⟨e, he⟩
      by_contra hcon
      rw [FileInput.to_request_dict, if_neg hcon] at he
      cases hc : f.s3_compression_type <;> simp [hc] at he
    · intro hcond
      refine ⟨PyError.valueError ("Data can only be gzipped when the input mode is Pipe."), ?_⟩
      rw [FileInput.to_request_dict, if_pos ?_]
      exact ⟨hcond.1, hcond.2⟩
  · intro hgz hpipe
    rw [FileInput.to_request_dict, if_neg (by simp [hpipe]), hgz]
    refine ⟨_, rfl, ?_⟩
    refine ⟨_, rfl, ?_⟩
    rfl

/-- Input descriptor exercising the gzip-with-Pipe success case of C1. -/
def c1Input : FileInput :=
  { source := "s3://bucket/data", destination := "/opt/ml/input", input_name := some "in",
    s3_data_type := S3DataType.MANIFEST_FILE, s3_input_mode := S3InputMode.PIPE,
    s3_download_mode := S3DownloadMode.CONTINUOUS,
    s3_data_distribution_type := S3DataDistributionType.FULLY_REPLICATED,
    s3_compression_type := some S3CompressionType.GZIP }

/-- Witness for C1 at a concrete gzip-and-Pipe descriptor. -/
theorem claim_C1_witness :
    ∃ v, FileInput.to_request_dict c1Input = Except.ok v ∧
      ∃ inner, reqGet v "S3Input" = some inner ∧ reqHasKey inner "S3CompressionType" = true :=
  (claim_C1 c1Input).2 rfl rfl

/-- Modelled from the spec: the network policy object of the `network`
module, which is not under `src/`; it is opaque to this module apart from
exposing a serialization to a request fragment. -/
structure NetworkConfig where
  payload : ReqVal

/-- Modelled from the spec: serialization of the opaque network policy. -/
def NetworkConfig.to_request_dict (n : NetworkConfig) : ReqVal :=
  n.payload

/-- Embedding of the `Processor` configuration state: the constructor
arguments stored on the instance plus the mutable current job name. -/
structure Processor where
  role : String
  image_uri : String
  processing_instance_count : Nat
  processing_instance_type : String
  entrypoint : Option (List String)
  arguments : Option (List String)
  processing_volume_size_in_gb : Nat
  processing_volume_kms_key : Option String
  processing_max_runtime_in_seconds : Nat
  base_job_name : Option String
  env : Option (List (String × String))
  tags : Option ReqVal
  network_config : Option NetworkConfig
  current_job_name : Option String

/-- Embeds the optional environment mapping as a payload value, `None`
when unset. -/
def optEnv : Option (List (String × String)) → ReqVal
  | some l => ReqVal.dict (l.map (fun kv => (kv.1, ReqVal.str kv.2)))
  | none => ReqVal.null

/-- Embeds the optional tag list as a payload value, `None` when unset. -/
def optTags : Option ReqVal → ReqVal
  | some v => v
  | none => ReqVal.null

/-- Embedding of the payload construction in `ProcessingJob.start_new`: the
`process_request_args` dictionary handed to the remote-service collaborator,
in insertion order. Serializing the inputs can raise, in which case no
request is built. -/
def ProcessingJob.build_request_args (p : Processor) (inputs : List FileInput)
    (outputs : List FileOutput) : Except PyError (List (String × ReqVal)) :=
  match inputs.mapM FileInput.to_request_dict with
  | Except.error e => Except.error e
  | Except.ok inFrags =>
    let appSpec : List (String × ReqVal) :=
      [("ImageUri", ReqVal.str p.image_uri)]
      ++ (match p.arguments with
          | some a => [("ContainerArguments", ReqVal.strList a)]
          | none => [])
      ++ (match p.entrypoint with
          | some e => [("ContainerEntrypoint", ReqVal.strList e)]
          | none => [])
    Except.ok
      [("inputs", ReqVal.list inFrags),
       ("outputs", ReqVal.list (outputs.map FileOutput.to_request_dict)),
       ("job_name", optStr p.current_job_name),
       ("resources", ReqVal.dict
         [("ClusterConfig", ReqVal.dict
           [("InstanceType", ReqVal.str p.processing_instance_type),
            ("InstanceCount", ReqVal.num p.processing_instance_count),
            ("VolumeSizeInGB", ReqVal.num p.processing_volume_size_in_gb)])]),
       ("stopping_condition", ReqVal.dict
         [("MaxRuntimeInSeconds", ReqVal.num p.processing_max_runtime_in_seconds)]),
       ("app_specification", ReqVal.dict appSpec),
       ("environment", optEnv p.env),
       ("network_config",
         match p.network_config with
         | some nc => nc.to_request_dict
         | none => ReqVal.null),
       ("role_arn", ReqVal.str p.role),
       ("tags", optTags p.tags)]

/-- C2: in the built submission payload, `ContainerArguments` and
`ContainerEntrypoint` are omitted from the app specification when the
corresponding configuration values are unset, the `network_config` entry is
explicitly null (present, not omitted) when no network policy is set, the
input and output fragments embedded in the payload are exactly the
serialized descriptors, an input fragment omits `S3CompressionType` when the
descriptor's compression attribute is unset, and an output fragment omits
`KmsKeyId` when the descriptor's KMS key is unset. -/
theorem claim_C2 :
    (∀ (p : Processor) (inputs : List FileInput) (outputs : List FileOutput) args,
      ProcessingJob.build_request_args p inputs outputs = Except.ok args →
        (p.arguments = none → ∀ v, lookupKey args "app_specification" = some v →
          reqHasKey v "ContainerArguments" = false) ∧
        (p.entrypoint = none → ∀ v, lookupKey args "app_specification" = some v →
          reqHasKey v "ContainerEntrypoint" = false) ∧
        (p.network_config = none → lookupKey args "network_config" = some ReqVal.null) ∧
        (∃ l, lookupKey args "inputs" = some (ReqVal.list l) ∧
          inputs.mapM FileInput.to_request_dict = Except.ok l) ∧
        lookupKey args "outputs" = some (ReqVal.list (outputs.map FileOutput.to_request_dict))) ∧
    (∀ (f : FileInput) v, FileInput.to_request_dict f = Except.ok v →
      f.s3_compression_type = none → ∀ inner, reqGet v "S3Input" = some inner →
        reqHasKey inner "S3CompressionType" = false) ∧
    (∀ o : FileOutput, o.kms_key_id = none → ∀ inner,
      reqGet (FileOutput.to_request_dict o) "S3Output" = some inner →
        reqHasKey inner "KmsKeyId" = false) := by
  refine ⟨?_, ?_, ?_⟩
  · intro p inputs outputs args hok
    rw [ProcessingJob.build_request_args] at hok
    cases hmap : inputs.mapM FileInput.to_request_dict with
    | error e => rw [hmap] at hok; cases hok
    | ok inFrags =>
      rw [hmap] at hok
      injection hok with hargs
      subst hargs
      refine ⟨?_, ?_, ?_, ?_, ?_⟩
      · intro hargsNone v hv
        rw [hargsNone] at hv
        cases hent : p.entrypoint <;> rw [hent] at hv <;>
          exact Option.some_injective _ hv ▸ rfl
      · intro hentNone v hv
        rw [hentNone] at hv
        cases harg : p.arguments <;> rw [harg] at hv <;>
          exact Option.some_injective _ hv ▸ rfl
      · intro hnc
        rw [hnc]
        rfl
      · exact ⟨inFrags, rfl, rfl⟩
      · rfl
  · intro f v hok hcomp inner hinner
    rw [FileInput.to_request_dict] at hok
    by_cases hc : f.s3_compression_type = some S3CompressionType.GZIP ∧
        ¬f.s3_input_mode = S3InputMode.PIPE
    · rw [if_pos hc] at hok; cases hok
    · rw [if_neg hc, hcomp] at hok
      injection hok with hv
      subst hv
      injection hinner with h2
      subst h2
      rfl
  · intro o hk inner hinner
    rw [FileOutput.to_request_dict] at hinner
    rw [hk] at hinner
    injection hinner with h2
    subst h2
    rfl

/-- Processor configuration with no arguments, entrypoint or network policy,
exercising the omission cases of C2. -/
def c2Proc : Processor :=
  { role := "arn:aws:iam::0:role/r", image_uri := "img", processing_instance_count := 1,
    processing_instance_type := "ml.m4.xlarge", entrypoint := none, arguments := none,
    processing_volume_size_in_gb := 30, processing_volume_kms_key := none,
    processing_max_runtime_in_seconds := 86400, base_job_name := none, env := none,
    tags := none, network_config := none, current_job_name := some "job-1" }

/-- Input descriptor with unset compression, for the C2 witness. -/
def c2Input : FileInput :=
  { source := "s3://bucket/data", destination := "/opt/ml/input", input_name := some "in",
    s3_data_type := S3DataType.MANIFEST_FILE, s3_input_mode := S3InputMode.FILE,
    s3_download_mode := S3DownloadMode.CONTINUOUS,
    s3_data_distribution_type := S3DataDistributionType.FULLY_REPLICATED,
    s3_compression_type := none }

/-- Output descriptor with unset KMS key, for the C2 witness. -/
def c2Output : FileOutput :=
  { source := "/opt/ml/output", destination := "s3://bucket/out", output_name := some "out",
    kms_key_id := none, s3_upload_mode := S3UploadMode.CONTINUOUS }

/-- Witness for C2 at a concrete unset-everything configuration. -/
theorem claim_C2_witness :
    (∀ v, lookupKey ((ProcessingJob.build_request_args c2Proc [c2Input] [c2Output]).toOption.getD [])
        "app_specification" = some v → reqHasKey v "ContainerArguments" = false) ∧
    lookupKey ((ProcessingJob.build_request_args c2Proc [c2Input] [c2Output]).toOption.getD [])
        "network_config" = some ReqVal.null := by
  have h := claim_C2
  have h1 := h.1 c2Proc [c2Input] [c2Output]
      ((ProcessingJob.build_request_args c2Proc [c2Input] [c2Output]).toOption.getD []) rfl
  exact ⟨h1.1 rfl, h1.2.2.1 rfl⟩

/-- A raw element of the caller's input list: either a typed `FileInput`
descriptor or any other Python value (which normalization must reject). -/
inductive RawFileInput where
  | fi (f : FileInput)
  | notFileInput
  deriving DecidableEq, Repr

/-- One invocation of the upload collaborator: the local path handed over
and the desired remote URI computed for it. -/
structure UploadCall where
  local_path : String
  desired_s3_uri : String
  deriving DecidableEq, Repr

/-- Embedding of one iteration of the loop in `Processor._normalize_inputs`
at 1-based position `count`: rejects untyped elements, assigns a generated
name when the descriptor has none, and uploads a non-s3 source to
`s3://<bucket>/<job>/<name>`, replacing the source with the collaborator's
returned URI. Returns the upload calls made for this element. -/
def Processor.normalize_one_input (bucket job : String) (upload : String → String → String)
    (count : Nat) : RawFileInput → List UploadCall × Except PyError FileInput
  | RawFileInput.notFileInput =>
    ([], Except.error (PyError.typeError ("Your inputs must be provided as FileInput objects.")))
  | RawFileInput.fi f =>
    let name : String :=
      match f.input_name with
      | some n => n
      | none => "input-" ++ toString count
    if uriScheme f.source = "s3" then
      ([], Except.ok { f with input_name := some name })
    else
      let desired := osJoin ["s3://", bucket, job, name]
      ([⟨f.source, desired⟩],
       Except.ok { f with input_name := some name, source := upload f.source desired })

/-- Embedding of the loop of `Processor._normalize_inputs` starting at
position `c`, accumulating upload calls in order. -/
def Processor.normalize_inputs_aux (bucket job : String) (upload : String → String → String) :
    Nat → List RawFileInput → List UploadCall × Except PyError (List FileInput)
  | _, [] => ([], Except.ok [])
  | c, x :: xs =>
    match Processor.normalize_one_input bucket job upload c x with
    | (calls, Except.error e) => (calls, Except.error e)
    | (calls, Except.ok f) =>
      match Processor.normalize_inputs_aux bucket job upload (c + 1) xs with
      | (rest, Except.error e) => (calls ++ rest, Except.error e)
      | (rest, Except.ok fs) => (calls ++ rest, Except.ok (f :: fs))

/-- Embedding of `Processor._normalize_inputs`: positions start at 1 and a
missing list yields an empty result. -/
def Processor.normalize_inputs (bucket job : String) (upload : String → String → String) :
    Option (List RawFileInput) → List UploadCall × Except PyError (List FileInput)
  | none => ([], Except.ok [])
  | some xs => Processor.normalize_inputs_aux bucket job upload 1 xs

/-- A typed element is always normalized successfully, with the source
unchanged when its scheme is s3. -/
theorem normalize_one_input_fi_s3 (bucket job : String) (upload : String → String → String)
    (c : Nat) (f : FileInput) (hs : uriScheme f.source = "s3") :
    Processor.normalize_one_input bucket job upload c (RawFileInput.fi f) =
      ([], Except.ok { f with input_name := some (match f.input_name with
        | some n => n
        | none => "input-" ++ toString c) }) := by
  simp only [Processor.normalize_one_input]
  rw [if_pos hs]

/-- A typed element whose source is not an s3 URI is uploaded to the
computed desired location and its source replaced by the returned URI. -/
theorem normalize_one_input_fi_local (bucket job : String) (upload : String → String → String)
    (c : Nat) (f : FileInput) (hs : ¬uriScheme f.source = "s3") :
    Processor.normalize_one_input bucket job upload c (RawFileInput.fi f) =
      ([⟨f.source, osJoin ["s3://", bucket, job, (match f.input_name with
          | some n => n
          | none => "input-" ++ toString c)]⟩],
       Except.ok { f with
         input_name := some (match f.input_name with
           | some n => n
           | none => "input-" ++ toString c),
         source := upload f.source (osJoin ["s3://", bucket, job, (match f.input_name with
           | some n => n
           | none => "input-" ++ toString c)]) }) := by
  simp only [Processor.normalize_one_input]
  rw [if_neg hs]

/-- Normalizing a typed element always succeeds. -/
theorem normalize_one_input_fi_ok (bucket job : String) (upload : String → String → String)
    (c : Nat) (f : FileInput) :
    ∃ calls g, Processor.normalize_one_input bucket job upload c (RawFileInput.fi f) =
      (calls, Except.ok g) := by
  by_cases hs : uriScheme f.source = "s3"
  · exact ⟨_, _, normalize_one_input_fi_s3 bucket job upload c f hs⟩
  · exact ⟨_, _, normalize_one_input_fi_local bucket job upload c f hs⟩

/-- Elementwise characterization of a successful normalization pass: the
result has the same length, position `i` of the output is exactly the
normalization of position `i` of the input at count `c + i`, and the upload
calls of each element all appear in the accumulated call log. -/
theorem normalize_inputs_aux_get (bucket job : String) (upload : String → String → String) :
    ∀ (xs : List RawFileInput) (c : Nat) (out : List FileInput),
      (Processor.normalize_inputs_aux bucket job upload c xs).2 = Except.ok out →
      out.length = xs.length ∧
      ∀ i (h : i < xs.length) (h2 : i < out.length),
        ∃ calls,
          Processor.normalize_one_input bucket job upload (c + i) (xs.get ⟨i, h⟩) =
            (calls, Except.ok (out.get ⟨i, h2⟩)) ∧
          ∀ u ∈ calls, u ∈ (Processor.normalize_inputs_aux bucket job upload c xs).1 := by
  intro xs
  induction xs with
  | nil =>
    intro c out hok
    simp only [Processor.normalize_inputs_aux] at hok
    injection hok with hnil
    subst hnil
    exact ⟨rfl, fun i h _ => absurd h (by simp)⟩
  | cons x xs ih =>
    intro c out hok
    rcases h1 : Processor.normalize_one_input bucket job upload c x with ⟨calls, res⟩
    cases res with
    | error e => simp [Processor.normalize_inputs_aux, h1] at hok
    | ok f =>
      rcases h2 : Processor.normalize_inputs_aux bucket job upload (c + 1) xs with ⟨rest, res2⟩
      cases res2 with
      | error e => simp [Processor.normalize_inputs_aux, h1, h2] at hok
      | ok fs =>
        simp only [Processor.normalize_inputs_aux, h1, h2] at hok
        injection hok with hcons
        subst hcons
        obtain ⟨hlen, hspec⟩ := ih (c + 1) fs (by rw [h2])
        constructor
        · simp [hlen]
        · intro i h h2i
          cases i with
          | zero =>
            refine ⟨calls, ?_, ?_⟩
            · simpa using h1
            · intro u hu
              simp only [Processor.normalize_inputs_aux, h1, h2]
              exact List.mem_append_left _ hu
          | succ n =>
            have hn : n < xs.length := by simpa using h
            have hn2 : n < fs.length := by simpa using h2i
            obtain ⟨cs, hone, hsub⟩ := hspec n hn hn2
            refine ⟨cs, ?_, ?_⟩
            · have hc : c + (n + 1) = (c + 1) + n := by omega
              rw [hc]
              simpa using hone
            · intro u hu
              have hmem := hsub u hu
              rw [h2] at hmem
              simp only [Processor.normalize_inputs_aux, h1, h2]
              exact List.mem_append_right _ hmem

/-- Normalization succeeds whenever every element is a typed descriptor. -/
theorem normalize_inputs_aux_ok (bucket job : String) (upload : String → String → String) :
    ∀ (xs : List RawFileInput) (c : Nat), (∀ x ∈ xs, x ≠ RawFileInput.notFileInput) →
      ∃ out, (Processor.normalize_inputs_aux bucket job upload c xs).2 = Except.ok out := by
  intro xs
  induction xs with
  | nil => exact fun c _ => ⟨[], rfl⟩
  | cons x xs ih =>
    intro c hall
    cases x with
    | notFileInput => exact absurd rfl (hall _ (List.mem_cons_self _ _))
    | fi f =>
      obtain ⟨calls, g, h1⟩ := normalize_one_input_fi_ok bucket job upload c f
      obtain ⟨out, hout⟩ := ih (c + 1) (fun y hy => hall y (List.mem_cons_of_mem _ hy))
      rcases h2 : Processor.normalize_inputs_aux bucket job upload (c + 1) xs with ⟨rest, res2⟩
      rw [h2] at hout
      simp only at hout
      subst hout
      exact ⟨g :: out, by simp [Processor.normalize_inputs_aux, h1, h2]⟩

/-- Normalization raises the `TypeError` whenever an untyped element occurs. -/
theorem normalize_inputs_aux_err (bucket job : String) (upload : String → String → String) :
    ∀ (xs : List RawFileInput) (c : Nat), RawFileInput.notFileInput ∈ xs →
      (Processor.normalize_inputs_aux bucket job upload c xs).2 =
        Except.error (PyError.typeError ("Your inputs must be provided as FileInput objects.")) := by
  intro xs
  induction xs with
  | nil => intro c h; cases h
  | cons x xs ih =>
    intro c hmem
    cases x with
    | notFileInput => simp [Processor.normalize_inputs_aux, Processor.normalize_one_input]
    | fi f =>
      have hx : RawFileInput.notFileInput ∈ xs := by
        rcases List.mem_cons.mp hmem with h | h
        · cases h
        · exact h
      obtain ⟨calls, g, h1⟩ := normalize_one_input_fi_ok bucket job upload c f
      have herr := ih (c + 1) hx
      rcases h2 : Processor.normalize_inputs_aux bucket job upload (c + 1) xs with ⟨rest, res2⟩
      rw [h2] at herr
      simp only at herr
      subst herr
      simp [Processor.normalize_inputs_aux, h1, h2]

/-- C3: `_normalize_inputs` keeps the descriptors in their original order
(position `i` of the output is derived from position `i` of the input, with
every policy field preserved), raises the `TypeError` when some element is
not a typed descriptor, and gives each unnamed descriptor the name
`input-{i}` for its 1-based position while leaving set names unchanged. -/
theorem claim_C3 (bucket job : String) (upload : String → String → String)
    (xs : List RawFileInput) :
    ((∀ x ∈ xs, x ≠ RawFileInput.notFileInput) →
      ∃ out,
        (Processor.normalize_inputs bucket job upload (some xs)).2 = Except.ok out ∧
        out.length = xs.length ∧
        ∀ i (h : i < xs.length) (h2 : i < out.length) (f : FileInput),
          xs.get ⟨i, h⟩ = RawFileInput.fi f →
          (out.get ⟨i, h2⟩).input_name =
            some (match f.input_name with
                  | some n => n
                  | none => "input-" ++ toString (i + 1)) ∧
          (out.get ⟨i, h2⟩).destination = f.destination ∧
          (out.get ⟨i, h2⟩).s3_data_type = f.s3_data_type ∧
          (out.get ⟨i, h2⟩).s3_input_mode = f.s3_input_mode ∧
          (out.get ⟨i, h2⟩).s3_download_mode = f.s3_download_mode ∧
          (out.get ⟨i, h2⟩).s3_data_distribution_type = f.s3_data_distribution_type ∧
          (out.get ⟨i, h2⟩).s3_compression_type = f.s3_compression_type) ∧
    (RawFileInput.notFileInput ∈ xs →
      (Processor.normalize_inputs bucket job upload (some xs)).2 =
        Except.error (PyError.typeError ("Your inputs must be provided as FileInput objects."))) := by
  constructor
  · intro hall
    obtain ⟨out, hout⟩ := normalize_inputs_aux_ok bucket job upload xs 1 hall
    obtain ⟨hlen, hspec⟩ := normalize_inputs_aux_get bucket job upload xs 1 out hout
    refine ⟨out, hout, hlen, ?_⟩
    intro i h h2 f hf
    obtain ⟨calls, hone, _⟩ := hspec i h h2
    rw [hf, Nat.add_comm 1 i] at hone
    by_cases hs : uriScheme f.source = "s3"
    · rw [normalize_one_input_fi_s3 bucket job upload (i + 1) f hs] at hone
      injection hone with hcalls hres
      injection hres with hg
      rw [← hg]
      exact ⟨rfl, rfl, rfl, rfl, rfl, rfl, rfl⟩
    · rw [normalize_one_input_fi_local bucket job upload (i + 1) f hs] at hone
      injection hone with hcalls hres
      injection hres with hg
      rw [← hg]
      exact ⟨rfl, rfl, rfl, rfl, rfl, rfl, rfl⟩
  · intro hmem
    exact normalize_inputs_aux_err bucket job upload xs 1 hmem

/-- Two-element input list: a named s3-sourced descriptor followed by an
unnamed one, for the C3 witness. -/
def c3Inputs : List RawFileInput :=
  [RawFileInput.fi
    { source := "s3://bucket/data", destination := "/opt/ml/a", input_name := some "named",
      s3_data_type := S3DataType.MANIFEST_FILE, s3_input_mode := S3InputMode.FILE,
      s3_download_mode := S3DownloadMode.CONTINUOUS,
      s3_data_distribution_type := S3DataDistributionType.FULLY_REPLICATED,
      s3_compression_type := some S3CompressionType.NONE },
   RawFileInput.fi
    { source := "s3://bucket/other", destination := "/opt/ml/b", input_name := none,
      s3_data_type := S3DataType.MANIFEST_FILE, s3_input_mode := S3InputMode.FILE,
      s3_download_mode := S3DownloadMode.CONTINUOUS,
      s3_data_distribution_type := S3DataDistributionType.FULLY_REPLICATED,
      s3_compression_type := some S3CompressionType.NONE }]

/-- Witness for C3 on a concrete two-element list. -/
theorem claim_C3_witness :
    ∃ out,
      (Processor.normalize_inputs "b" "j" (fun _ d => d) (some c3Inputs)).2 = Except.ok out ∧
      out.length = c3Inputs.length := by
  obtain ⟨out, hout, hlen, _⟩ := (claim_C3 "b" "j" (fun _ d => d) c3Inputs).1 (by decide)
  exact ⟨out, hout, hlen⟩

/-- C4: for every typed descriptor processed by `_normalize_inputs`, a
non-s3 source is replaced by the URI the upload collaborator returns for the
desired location `s3://<bucket>/<job>/<input-name>` and that upload call is
recorded in the log, while an s3 source is left unchanged and the element
contributes no upload call. -/
theorem claim_C4 (bucket job : String) (upload : String → String → String)
    (xs : List RawFileInput) (out : List FileInput)
    (hok : (Processor.normalize_inputs bucket job upload (some xs)).2 = Except.ok out)
    (i : Nat) (h : i < xs.length) (f : FileInput)
    (hf : xs.get ⟨i, h⟩ = RawFileInput.fi f) :
    ∃ h2 : i < out.length,
      (¬uriScheme f.source = "s3" →
        (out.get ⟨i, h2⟩).source =
          upload f.source (osJoin ["s3://", bucket, job,
            (match f.input_name with
             | some n => n
             | none => "input-" ++ toString (i + 1))]) ∧
        (⟨f.source, osJoin ["s3://", bucket, job,
            (match f.input_name with
             | some n => n
             | none => "input-" ++ toString (i + 1))]⟩ : UploadCall) ∈
          (Processor.normalize_inputs bucket job upload (some xs)).1 ∧
        Processor.normalize_one_input bucket job upload (i + 1) (RawFileInput.fi f) =
          ([⟨f.source, osJoin ["s3://", bucket, job,
              (match f.input_name with
               | some n => n
               | none => "input-" ++ toString (i + 1))]⟩],
           Except.ok (out.get ⟨i, h2⟩))) ∧
      (uriScheme f.source = "s3" →
        (out.get ⟨i, h2⟩).source = f.source ∧
        Processor.normalize_one_input bucket job upload (i + 1) (RawFileInput.fi f) =
          ([], Except.ok (out.get ⟨i, h2⟩))) := by
  obtain ⟨hlen, hspec⟩ := normalize_inputs_aux_get bucket job upload xs 1 out hok
  have h2 : i < out.length := by omega
  obtain ⟨calls, hone, hsub⟩ := hspec i h h2
  rw [hf, Nat.add_comm 1 i] at hone
  refine ⟨h2, ?_, ?_⟩
  · intro hns
    rw [normalize_one_input_fi_local bucket job upload (i + 1) f hns] at hone
    injection hone with hcalls hres
    injection hres with hg
    refine ⟨by rw [← hg], ?_, ?_⟩
    · exact hsub _ (by rw [← hcalls]; exact List.mem_singleton.mpr rfl)
    · rw [normalize_one_input_fi_local bucket job upload (i + 1) f hns, hg]
  · intro hs
    rw [normalize_one_input_fi_s3 bucket job upload (i + 1) f hs] at hone
    injection hone with hcalls hres
    injection hres with hg
    refine ⟨by rw [← hg], ?_⟩
    rw [normalize_one_input_fi_s3 bucket job upload (i + 1) f hs, hg]

/-- Single unnamed local-path descriptor, for the C4 witness. -/
def c4Inputs : List RawFileInput :=
  [RawFileInput.fi
    { source := "local/data", destination := "/opt/ml/a", input_name := none,
      s3_data_type := S3DataType.MANIFEST_FILE, s3_input_mode := S3InputMode.FILE,
      s3_download_mode := S3DownloadMode.CONTINUOUS,
      s3_data_distribution_type := S3DataDistributionType.FULLY_REPLICATED,
      s3_compression_type := some S3CompressionType.NONE }]

/-- The normalization output for the C4 witness list. -/
def c4Out : List FileInput :=
  (Processor.normalize_inputs "b" "j" (fun _ d => d) (some c4Inputs)).2.toOption.getD []

/-- Witness for C4: the local source is rewritten to the upload result for
`s3://b/j/input-1` and the call is logged. -/
theorem claim_C4_witness :
    ∃ h2 : 0 < c4Out.length,
      (c4Out.get ⟨0, h2⟩).source = (fun (_ d : String) => d) "local/data"
          (osJoin ["s3://", "b", "j", "input-1"]) ∧
      (⟨"local/data", osJoin ["s3://", "b", "j", "input-1"]⟩ : UploadCall) ∈
        (Processor.normalize_inputs "b" "j" (fun _ d => d) (some c4Inputs)).1 := by
  obtain ⟨h2, hlocal, _⟩ :=
    claim_C4 "b" "j" (fun _ d => d) c4Inputs c4Out rfl 0 (by decide)
      { source := "local/data", destination := "/opt/ml/a", input_name := none,
        s3_data_type := S3DataType.MANIFEST_FILE, s3_input_mode := S3InputMode.FILE,
        s3_download_mode := S3DownloadMode.CONTINUOUS,
        s3_data_distribution_type := S3DataDistributionType.FULLY_REPLICATED,
        s3_compression_type := some S3CompressionType.NONE } rfl
  exact ⟨h2, (hlocal (by decide)).1, (hlocal (by decide)).2.1⟩

/-- A raw element of the caller's output list: either a plain string (a
container-local path) or a typed `FileOutput` descriptor. -/
inductive RawFileOutput where
  | strOut (s : String)
  | fo (o : FileOutput)
  deriving DecidableEq, Repr

/-- Assigns the generated `output-{count}` name when the descriptor has
none, as in the loop of `Processor._normalize_outputs`. -/
def assignOutputName (o : FileOutput) (count : Nat) : FileOutput :=
  match o.output_name with
  | none => { o with output_name := some ("output-" ++ toString count) }
  | some _ => o

/-- Embedding of one iteration of the loop in `Processor._normalize_outputs`
at 1-based position `count`: a plain string is wrapped into a descriptor
whose destination is `s3://<bucket>/<job>/output`, then an unset name is
assigned. The body performs no upload call. -/
def Processor.normalize_one_output (bucket job : String) (count : Nat) :
    RawFileOutput → FileOutput
  | RawFileOutput.strOut s =>
    assignOutputName
      { source := s, destination := osJoin ["s3://", bucket, job, "output"],
        output_name := none, kms_key_id := none,
        s3_upload_mode := S3UploadMode.CONTINUOUS } count
  | RawFileOutput.fo o => assignOutputName o count

/-- Embedding of the loop of `Processor._normalize_outputs` starting at
position `c`. -/
def Processor.normalize_outputs_aux (bucket job : String) :
    Nat → List RawFileOutput → List FileOutput
  | _, [] => []
  | c, x :: xs =>
    Processor.normalize_one_output bucket job c x ::
      Processor.normalize_outputs_aux bucket job (c + 1) xs

/-- Embedding of `Processor._normalize_outputs`: positions start at 1, a
missing list yields an empty result, and the (always empty) upload-call log
records that the output path performs no upload. -/
def Processor.normalize_outputs (bucket job : String) :
    Option (List RawFileOutput) → List UploadCall × List FileOutput
  | none => ([], [])
  | some xs => ([], Processor.normalize_outputs_aux bucket job 1 xs)

/-- The output normalization loop preserves length. -/
theorem normalize_outputs_aux_length (bucket job : String) :
    ∀ (xs : List RawFileOutput) (c : Nat),
      (Processor.normalize_outputs_aux bucket job c xs).length = xs.length := by
  intro xs
  induction xs with
  | nil => intro c; rfl
  | cons x xs ih =>
    intro c
    simp [Processor.normalize_outputs_aux, ih (c + 1)]

/-- Position `i` of the normalized outputs is the normalization of position
`i` of the raw list at count `c + i`. -/
theorem normalize_outputs_aux_get (bucket job : String) :
    ∀ (xs : List RawFileOutput) (c : Nat) (i : Nat) (h : i < xs.length)
      (h2 : i < (Processor.normalize_outputs_aux bucket job c xs).length),
      (Processor.normalize_outputs_aux bucket job c xs).get ⟨i, h2⟩ =
        Processor.normalize_one_output bucket job (c + i) (xs.get ⟨i, h⟩) := by
  intro xs
  induction xs with
  | nil => intro c i h _; exact absurd h (by simp)
  | cons x xs ih =>
    intro c i h h2
    cases i with
    | zero => simp [Processor.normalize_outputs_aux]
    | succ n =>
      have hn : n < xs.length := by simpa using h
      have hn2 : n < (Processor.normalize_outputs_aux bucket job (c + 1) xs).length := by
        rw [normalize_outputs_aux_length]; exact hn
      have hc : c + (n + 1) = (c + 1) + n := by omega
      simpa [Processor.normalize_outputs_aux, hc] using ih (c + 1) n hn hn2

/-- C5: `_normalize_outputs` preserves order and performs no upload, and a
plain string `X` at 1-based position `i` becomes a descriptor with source
`X`, destination `s3://<bucket>/<job>/output` and name `output-{i}`. -/
theorem claim_C5 (bucket job : String) (xs : List RawFileOutput) :
    (Processor.normalize_outputs bucket job (some xs)).1 = [] ∧
    (Processor.normalize_outputs bucket job (some xs)).2.length = xs.length ∧
    ∀ i (h : i < xs.length)
      (h2 : i < (Processor.normalize_outputs bucket job (some xs)).2.length) (s : String),
      xs.get ⟨i, h⟩ = RawFileOutput.strOut s →
      (Processor.normalize_outputs bucket job (some xs)).2.get ⟨i, h2⟩ =
        { source := s, destination := osJoin ["s3://", bucket, job, "output"],
          output_name := some ("output-" ++ toString (i + 1)), kms_key_id := none,
          s3_upload_mode := S3UploadMode.CONTINUOUS } := by
  refine ⟨rfl, normalize_outputs_aux_length bucket job xs 1, ?_⟩
  intro i h h2 s hs
  have hget := normalize_outputs_aux_get bucket job xs 1 i h h2
  rw [hs, Nat.add_comm 1 i] at hget
  exact hget

/-- Witness for C5 at a concrete one-string output list. -/
theorem claim_C5_witness :
    ∃ h2 : 0 < (Processor.normalize_outputs "b" "j" (some [RawFileOutput.strOut "res"])).2.length,
      (Processor.normalize_outputs "b" "j" (some [RawFileOutput.strOut "res"])).2.get ⟨0, h2⟩ =
        { source := "res", destination := osJoin ["s3://", "b", "j", "output"],
          output_name := some "output-1", kms_key_id := none,
          s3_upload_mode := S3UploadMode.CONTINUOUS } := by
  refine ⟨by decide, ?_⟩
  exact (claim_C5 "b" "j" [RawFileOutput.strOut "res"]).2.2 0 (by decide) (by decide) "res" rfl

/-- The local filesystem as seen through `os.path.isdir` / `os.path.isfile`,
an external collaborator passed in explicitly. -/
structure FS where
  isdir : String → Bool
  isfile : String → Bool

/-- Embedding of `ScriptModeProcessor.CODE_CONTAINER_BASE_PATH`. -/
def CODE_CONTAINER_BASE_PATH : String := "/code/"

/-- Embedding of `ScriptModeProcessor.CODE_CONTAINER_INPUT_NAME`. -/
def CODE_CONTAINER_INPUT_NAME : String := "source"

/-- Message raised when a directory source comes without a script name. -/
def dirWithoutScriptMsg : String :=
  "You provided a directory without providing a script name. Please provide a script name inside the directory that you specified."

/-- Message raised when the source path exists neither as file nor directory. -/
def missingSourceMsg : String :=
  "The file or directory you specified does not exist."

/-- Embedding of `ScriptModeProcessor._get_customer_script_name`: resolves
the entry script from the source (s3 URI, local file or local directory) and
the optional script name, with the source's branch order. -/
def ScriptModeProcessor.get_customer_script_name (fs : FS) (source : String)
    (script_name : Option String) : Except PyError String :=
  if fs.isdir source = true ∧ script_name = none then
    Except.error (PyError.valueError dirWithoutScriptMsg)
  else if (uriScheme source = "s3" ∨ fs.isdir source = true) ∧ ¬script_name = none then
    Except.ok (script_name.getD "")
  else if uriScheme source = "s3" ∨ fs.isfile source = true then
    Except.ok (basename source)
  else
    Except.error (PyError.valueError missingSourceMsg)

/-- C6: script-name resolution fails with a validation error for a local
directory without a script name; returns the supplied script name verbatim
for an s3 URI or a local directory with a script name; returns the final
path segment of the source for an s3 URI without a script name or for an
existing local file; and fails with a validation error for a local path that
is neither an existing file nor an existing directory. -/
theorem claim_C6 (fs : FS) (source : String) (script_name : Option String) :
    (fs.isdir source = true → script_name = none →
      ScriptModeProcessor.get_customer_script_name fs source script_name =
        Except.error (PyError.valueError dirWithoutScriptMsg)) ∧
    (∀ n, (uriScheme source = "s3" ∨ fs.isdir source = true) → script_name = some n →
      ScriptModeProcessor.get_customer_script_name fs source script_name = Except.ok n) ∧
    (uriScheme source = "s3" → fs.isdir source = false → script_name = none →
      ScriptModeProcessor.get_customer_script_name fs source script_name =
        Except.ok (basename source)) ∧
    (fs.isfile source = true → fs.isdir source = false → ¬uriScheme source = "s3" →
      ScriptModeProcessor.get_customer_script_name fs source script_name =
        Except.ok (basename source)) ∧
    (¬uriScheme source = "s3" → fs.isfile source = false → fs.isdir source = false →
      ScriptModeProcessor.get_customer_script_name fs source script_name =
        Except.error (PyError.valueError missingSourceMsg)) := by
  refine ⟨?_, ?_, ?_, ?_, ?_⟩
  · intro hd hn
    rw [ScriptModeProcessor.get_customer_script_name, if_pos ⟨hd, hn⟩]
  · intro n hor hn
    rw [ScriptModeProcessor.get_customer_script_name,
      if_neg (fun hc => by rw [hn] at hc; exact Option.noConfusion hc.2),
      if_pos ⟨hor, by rw [hn]; exact fun hc => Option.noConfusion hc⟩, hn]
    rfl
  · intro hs hd hn
    rw [ScriptModeProcessor.get_customer_script_name,
      if_neg (fun hc => by rw [hd] at hc; exact Bool.noConfusion hc.1),
      if_neg (fun hc => hc.2 hn), if_pos (Or.inl hs)]
  · intro hf hd hns
    rw [ScriptModeProcessor.get_customer_script_name,
      if_neg (fun hc => by rw [hd] at hc; exact Bool.noConfusion hc.1),
      if_neg (fun hc => by
        rcases hc.1 with h | h
        · exact hns h
        · rw [hd] at h; exact Bool.noConfusion h),
      if_pos (Or.inr hf)]
  · intro hns hf hd
    rw [ScriptModeProcessor.get_customer_script_name,
      if_neg (fun hc => by rw [hd] at hc; exact Bool.noConfusion hc.1),
      if_neg (fun hc => by
        rcases hc.1 with h | h
        · exact hns h
        · rw [hd] at h; exact Bool.noConfusion h),
      if_neg (fun hc => by
        rcases hc with h | h
        · exact hns h
        · rw [hf] at h; exact Bool.noConfusion h)]

/-- Filesystem with a single directory `mydir`, for the C6 witness. -/
def c6Fs : FS :=
  { isdir := fun s => s = "mydir", isfile := fun _ => false }

/-- Witness for C6: a directory source with a supplied script name resolves
to that name verbatim. -/
theorem claim_C6_witness :
    ScriptModeProcessor.get_customer_script_name c6Fs "mydir" (some "run.py") =
      Except.ok "run.py" :=
  (claim_C6 c6Fs "mydir" (some "run.py")).2.1 "run.py" (Or.inr (by decide)) rfl

/-- Message raised for a script extension that is neither Python nor Bash. -/
def unsupportedExtMsg : String :=
  "Script Mode supports Python or Bash scripts. To use a custom entrypoint, please use Processor."

/-- Embedding of `ScriptModeProcessor._get_execution_program`: chooses the
interpreter from the script's `os.path.splitext` extension and the
configured python version tag. -/
def ScriptModeProcessor.get_execution_program (py_version script_name : String) :
    Except PyError String :=
  let file_extension := splitextExt script_name
  if file_extension = ".py" then
    if py_version = "py3" then Except.ok "python3"
    else if py_version = "py2" then Except.ok "python2"
    else Except.ok "python"
  else if file_extension = ".sh" then Except.ok "bash"
  else Except.error (PyError.valueError unsupportedExtMsg)

/-- Embedding of `ScriptModeProcessor._set_entrypoint`: the container-local
script location joined from the fixed base path, the reserved channel name
and the script name, paired with the chosen interpreter. -/
def ScriptModeProcessor.set_entrypoint (py_version customer_script_name : String) :
    Except PyError (List String) :=
  let customer_script_location :=
    osJoin [CODE_CONTAINER_BASE_PATH, CODE_CONTAINER_INPUT_NAME, customer_script_name]
  match ScriptModeProcessor.get_execution_program py_version customer_script_name with
  | Except.error e => Except.error e
  | Except.ok prog => Except.ok [prog, customer_script_location]

/-- Counterexample to C7 as stated: the script name `.py` ends in `.py`
(it is `"" ++ ".py"`), yet with tag `py3` the code raises the validation
error instead of deriving a `python3` entrypoint, because
`os.path.splitext(".py")` yields an empty extension. -/
theorem claim_C7_counterexample :
    ("" ++ ".py" = ".py") ∧ splitextExt ".py" = "" ∧
    ScriptModeProcessor.set_entrypoint "py3" ".py" =
      Except.error (PyError.valueError unsupportedExtMsg) :=
  ⟨rfl, rfl, rfl⟩

/-- C7 (amended): for a script name whose `splitext` extension is `.py`
(its final path component has a non-dot character before the last dot), the
interpreter is `python3` for tag `py3`, `python2` for tag `py2` and
`python` otherwise; extension `.sh` gives `bash`; any other computed
extension (including the empty extension of stemless names such as `.py`
itself) raises a validation error; on success the entrypoint is exactly the
two-element command of the interpreter and the joined container path. -/
theorem claim_C7_amended (py_version script : String) :
    (splitextExt script = ".py" → py_version = "py3" →
      ScriptModeProcessor.set_entrypoint py_version script =
        Except.ok ["python3",
          osJoin [CODE_CONTAINER_BASE_PATH, CODE_CONTAINER_INPUT_NAME, script]]) ∧
    (splitextExt script = ".py" → py_version = "py2" →
      ScriptModeProcessor.set_entrypoint py_version script =
        Except.ok ["python2",
          osJoin [CODE_CONTAINER_BASE_PATH, CODE_CONTAINER_INPUT_NAME, script]]) ∧
    (splitextExt script = ".py" → ¬py_version = "py3" → ¬py_version = "py2" →
      ScriptModeProcessor.set_entrypoint py_version script =
        Except.ok ["python",
          osJoin [CODE_CONTAINER_BASE_PATH, CODE_CONTAINER_INPUT_NAME, script]]) ∧
    (splitextExt script = ".sh" →
      ScriptModeProcessor.set_entrypoint py_version script =
        Except.ok ["bash",
          osJoin [CODE_CONTAINER_BASE_PATH, CODE_CONTAINER_INPUT_NAME, script]]) ∧
    (¬splitextExt script = ".py" → ¬splitextExt script = ".sh" →
      ScriptModeProcessor.set_entrypoint py_version script =
        Except.error (PyError.valueError unsupportedExtMsg)) := by
  refine ⟨?_, ?_, ?_, ?_, ?_⟩
  · intro hext hv
    simp [ScriptModeProcessor.set_entrypoint, ScriptModeProcessor.get_execution_program,
      hext, hv]
  · intro hext hv
    simp [ScriptModeProcessor.set_entrypoint, ScriptModeProcessor.get_execution_program,
      hext, hv]
  · intro hext hv3 hv2
    simp [ScriptModeProcessor.set_entrypoint, ScriptModeProcessor.get_execution_program,
      hext, hv3, hv2]
  · intro hext
    simp [ScriptModeProcessor.set_entrypoint, ScriptModeProcessor.get_execution_program,
      hext]
  · intro hpy hsh
    simp [ScriptModeProcessor.set_entrypoint, ScriptModeProcessor.get_execution_program,
      hpy, hsh]

/-- Witness for the amended C7 at `script.py` with tag `py3`. -/
theorem claim_C7_witness :
    ScriptModeProcessor.set_entrypoint "py3" "script.py" =
      Except.ok ["python3",
        osJoin [CODE_CONTAINER_BASE_PATH, CODE_CONTAINER_INPUT_NAME, "script.py"]] :=
  (claim_C7_amended "py3" "script.py").1 rfl rfl

/-- Side effects a run performs against the external collaborators: an
object-storage upload, the submission call with its full argument
dictionary, and the post-submission service calls, each keyed exactly by
the value the code passes. -/
inductive Effect where
  | s3Upload (local_path desired_s3_uri : String)
  | process (args : List (String × ReqVal))
  | logsForProcessingJob (job_name : Option String) (wait : Bool)
  | waitForProcessingJob (job_name : Option String)
  | describeAnalyticsJob (job_name : Option String)
  | stopProcessingJob (job_name : Option String)

/-- Embedding of a `ProcessingJob` instance. Modelled from the spec: the
`_Job` base class lives in the `job` module, which is not under `src/`; per
the spec a JobRecord holds the opaque session handle, the job name and the
two descriptor lists, so the attributes set on an instance are exactly
`sagemaker_session` (elided here as the opaque collaborator), `job_name`,
`inputs` and `outputs`. -/
structure ProcessingJobRecord where
  job_name : Option String
  inputs : List FileInput
  outputs : List FileOutput

/-- Modelled from the spec: Python attribute lookup on a `ProcessingJob`
record restricted to its string-or-None valued attributes. The constructor
chain sets only `job_name` among those, so looking up any other attribute
(such as `name`) finds nothing, which in Python raises `AttributeError`. -/
def ProcessingJobRecord.strAttr (j : ProcessingJobRecord) (a : String) :
    Option (Option String) :=
  if a = "job_name" then some j.job_name else none

/-- Embedding of `ProcessingJob.wait`: streams logs or polls silently, keyed
by the `job_name` attribute. -/
def ProcessingJob.wait (j : ProcessingJobRecord) (logs : Bool) : Except PyError Effect :=
  match j.strAttr "job_name" with
  | some v =>
    if logs then Except.ok (Effect.logsForProcessingJob v true)
    else Except.ok (Effect.waitForProcessingJob v)
  | none => Except.error (PyError.attributeError "job_name")

/-- Embedding of `ProcessingJob.describe`: calls the describe operation
keyed by the `job_name` attribute and returns the record unchanged (the
body performs no assignment to the record). -/
def ProcessingJob.describe (j : ProcessingJobRecord) (_print_response : Bool) :
    Except PyError (Effect × ProcessingJobRecord) :=
  match j.strAttr "job_name" with
  | some v => Except.ok (Effect.describeAnalyticsJob v, j)
  | none => Except.error (PyError.attributeError "job_name")

/-- Embedding of `ProcessingJob.stop`: the source reads `self.name`, an
attribute never set on the record, so the lookup fails. -/
def ProcessingJob.stop (j : ProcessingJobRecord) : Except PyError Effect :=
  match j.strAttr "name" with
  | some v => Except.ok (Effect.stopProcessingJob v)
  | none =>
    Except.error (PyError.attributeError "ProcessingJob object has no attribute name")

/-- C8: `wait` and `describe` call their remote-service operations keyed by
the record's `job_name` (the identifier the record was constructed with)
and `describe` returns the record unmutated; `stop`, however, reads the
attribute `name`, which the record does not have, so instead of calling the
stop operation keyed by the job name it raises `AttributeError`. -/
theorem claim_C8 :
    (∀ (j : ProcessingJobRecord) (logs : Bool),
      ProcessingJob.wait j logs =
        Except.ok (if logs then Effect.logsForProcessingJob j.job_name true
                   else Effect.waitForProcessingJob j.job_name)) ∧
    (∀ (j : ProcessingJobRecord) (pr : Bool),
      ProcessingJob.describe j pr = Except.ok (Effect.describeAnalyticsJob j.job_name, j)) ∧
    (∀ j : ProcessingJobRecord,
      ProcessingJob.stop j =
        Except.error (PyError.attributeError "ProcessingJob object has no attribute name")) :=
  ⟨fun j logs => by cases logs <;> rfl, fun j pr => rfl, fun j => rfl⟩

/-- Modelled from the spec: `name_from_base` lives in the utils module,
which is not under `src/`. Per the spec (section 4.3) a generated job name
is a base name plus a uniqueness suffix such as a timestamp, unique per
call; the suffix is threaded explicitly so distinct generation events carry
distinct suffixes. -/
def name_from_base (base : String) (suffix : Nat) : String :=
  base ++ "-" ++ toString suffix

/-- Modelled from the spec: `base_name_from_image` lives in the utils
module, which is not under `src/`; it derives a base name from the
container image reference. -/
def base_name_from_image (image_uri : String) : String :=
  image_uri

/-- Embedding of `Processor._generate_current_job_name`: the supplied job
name verbatim, else a name generated from the (truthy) base job name or
from the image reference. -/
def Processor.generate_current_job_name (p : Processor) (suffix : Nat)
    (job_name : Option String) : String :=
  match job_name with
  | some n => n
  | none =>
    match p.base_job_name with
    | some b =>
      if b = "" then name_from_base (base_name_from_image p.image_uri) suffix
      else name_from_base b suffix
    | none => name_from_base (base_name_from_image p.image_uri) suffix

/-- Embedding of `ProcessingJob.start_new`: builds the request payload and,
when that succeeds, yields the submission arguments together with the job
record bound to the processor's current job name and the descriptor lists. -/
def ProcessingJob.start_new (p : Processor) (inputs : List FileInput)
    (outputs : List FileOutput) :
    Except PyError (ProcessingJobRecord × List (String × ReqVal)) :=
  match ProcessingJob.build_request_args p inputs outputs with
  | Except.error e => Except.error e
  | Except.ok args =>
    Except.ok ({ job_name := p.current_job_name, inputs := inputs, outputs := outputs }, args)

/-- The effect performed by one recorded upload call. -/
def uploadEffect (c : UploadCall) : Effect :=
  Effect.s3Upload c.local_path c.desired_s3_uri

/-- Embedding of `Processor.run`: regenerates the current job name from the
supplied `job_name` argument, normalizes inputs and outputs under that name,
submits via `start_new` and optionally waits. The first component is the
ordered trace of collaborator calls performed before any raised error. -/
def Processor.run (p : Processor) (bucket : String) (upload : String → String → String)
    (suffix : Nat) (inputs : Option (List RawFileInput))
    (outputs : Option (List RawFileOutput)) (wait logs : Bool)
    (job_name : Option String) :
    List Effect × Except PyError (Processor × ProcessingJobRecord) :=
  let jn := p.generate_current_job_name suffix job_name
  let p1 := { p with current_job_name := some jn }
  match Processor.normalize_inputs bucket jn upload inputs with
  | (calls, Except.error e) => (calls.map uploadEffect, Except.error e)
  | (calls, Except.ok nin) =>
    let nouts := Processor.normalize_outputs bucket jn outputs
    let upEffs := calls.map uploadEffect ++ nouts.1.map uploadEffect
    match ProcessingJob.start_new p1 nin nouts.2 with
    | Except.error e => (upEffs, Except.error e)
    | Except.ok (job, args) =>
      if wait then
        match ProcessingJob.wait job logs with
        | Except.ok c => (upEffs ++ [Effect.process args, c], Except.ok (p1, job))
        | Except.error e => (upEffs ++ [Effect.process args], Except.error e)
      else (upEffs ++ [Effect.process args], Except.ok (p1, job))

/-- Embedding of a `ScriptModeProcessor` instance: the base configuration
plus the python version tag. -/
structure ScriptModeProcessor extends Processor where
  py_version : String

/-- Embedding of `ScriptModeProcessor._upload_source`: computes the desired
location `s3://<bucket>/<current-job-name>/source` and uploads the whole
source there, returning the collaborator's URI and the recorded call. -/
def ScriptModeProcessor.upload_source (bucket current_job_name : String)
    (upload : String → String → String) (source : String) : String × UploadCall :=
  let desired := osJoin ["s3://", bucket, current_job_name, CODE_CONTAINER_INPUT_NAME]
  (upload source desired, ⟨source, desired⟩)

/-- The injected source descriptor built in
`ScriptModeProcessor._convert_source_and_add_to_inputs`, with the
constructor defaults of `FileInput`. -/
def sourceFileInput (s3_uri : String) : FileInput :=
  { source := s3_uri,
    destination := osJoin [CODE_CONTAINER_BASE_PATH, CODE_CONTAINER_INPUT_NAME],
    input_name := some CODE_CONTAINER_INPUT_NAME,
    s3_data_type := S3DataType.MANIFEST_FILE,
    s3_input_mode := S3InputMode.FILE,
    s3_download_mode := S3DownloadMode.CONTINUOUS,
    s3_data_distribution_type := S3DataDistributionType.FULLY_REPLICATED,
    s3_compression_type := some S3CompressionType.NONE }

/-- Message of the `AttributeError` raised by appending to `None`. -/
def noneAppendMsg : String :=
  "NoneType object has no attribute append"

/-- Embedding of `ScriptModeProcessor._convert_source_and_add_to_inputs`:
appends the injected source descriptor to the caller's input list; when the
caller supplied no list, the append on `None` raises `AttributeError`. -/
def ScriptModeProcessor.convert_source_and_add_to_inputs
    (inputs : Option (List RawFileInput)) (s3_uri : String) :
    Except PyError (List RawFileInput) :=
  match inputs with
  | none => Except.error (PyError.attributeError noneAppendMsg)
  | some l => Except.ok (l ++ [RawFileInput.fi (sourceFileInput s3_uri)])

/-- Embedding of `ScriptModeProcessor.run`: generates the current job name,
resolves the script name, uploads the source under the generated name,
injects the source input, derives the entrypoint and delegates to the base
`run` — passing the original `job_name` argument, so the base run generates
the job name again (with its own suffix) when none was supplied. -/
def ScriptModeProcessor.run (smp : ScriptModeProcessor) (fs : FS) (bucket : String)
    (upload : String → String → String) (suffix1 suffix2 : Nat)
    (source : String) (script_name : Option String)
    (inputs : Option (List RawFileInput)) (outputs : Option (List RawFileOutput))
    (wait logs : Bool) (job_name : Option String) :
    List Effect × Except PyError (Processor × ProcessingJobRecord) :=
  let p := smp.toProcessor
  let jn1 := p.generate_current_job_name suffix1 job_name
  let p1 := { p with current_job_name := some jn1 }
  match ScriptModeProcessor.get_customer_script_name fs source script_name with
  | Except.error e => ([], Except.error e)
  | Except.ok scriptName =>
    let up := ScriptModeProcessor.upload_source bucket jn1 upload source
    match ScriptModeProcessor.convert_source_and_add_to_inputs inputs up.1 with
    | Except.error e => ([uploadEffect up.2], Except.error e)
    | Except.ok inputsWithSource =>
      match ScriptModeProcessor.set_entrypoint smp.py_version scriptName with
      | Except.error e => ([uploadEffect up.2], Except.error e)
      | Except.ok ep =>
        let p2 := { p1 with entrypoint := some ep }
        let r := Processor.run p2 bucket upload suffix2 (some inputsWithSource) outputs
          wait logs job_name
        (uploadEffect up.2 :: r.1, r.2)

/-- The desired remote URI of an upload effect, when it is one. -/
def Effect.uploadDesired : Effect → Option String
  | Effect.s3Upload _ d => some d
  | _ => none

/-- The `job_name` entry of a submission effect, when it is one. -/
def Effect.submittedJobName : Effect → Option ReqVal
  | Effect.process args => lookupKey args "job_name"
  | _ => none

/-- Script-mode configuration with base job name `b`, for C9 and C10. -/
def c9proc : Processor :=
  { role := "arn:aws:iam::0:role/r", image_uri := "img", processing_instance_count := 1,
    processing_instance_type := "ml.m4.xlarge", entrypoint := none, arguments := none,
    processing_volume_size_in_gb := 30, processing_volume_kms_key := none,
    processing_max_runtime_in_seconds := 86400, base_job_name := some "b", env := none,
    tags := none, network_config := none, current_job_name := none }

/-- Script-mode processor over `c9proc` with tag `py3`. -/
def c9smp : ScriptModeProcessor :=
  { toProcessor := c9proc, py_version := "py3" }

/-- Filesystem in which only `script.py` exists, as a file. -/
def c9fs : FS :=
  { isdir := fun _ => false, isfile := fun s => s = "script.py" }

/-- Upload collaborator that stores at exactly the desired URI. -/
def c9upload : String → String → String :=
  fun _ desired => desired

/-- Effect trace of a script-mode run with an auto-generated job name
(generation suffixes 1 then 2) and an empty caller input list. -/
def c9trace : List Effect :=
  (ScriptModeProcessor.run c9smp c9fs "bkt" c9upload 1 2 "script.py" none (some [])
    none false false none).1

/-- C9: with an auto-generated job name, the source is uploaded under the
job name generated at the start of the script-mode run (`b-1`), but the
base run regenerates the name and submits the job as `b-2`, so the upload
location is not under the submitted job's namespace, contradicting the
claim that the two coincide for every script-mode run. -/
theorem claim_C9 :
    c9trace.filterMap Effect.uploadDesired =
      [osJoin ["s3://", "bkt", "b-1", CODE_CONTAINER_INPUT_NAME]] ∧
    c9trace.filterMap Effect.submittedJobName = [ReqVal.str "b-2"] ∧
    osJoin ["s3://", "bkt", "b-1", CODE_CONTAINER_INPUT_NAME] ≠
      osJoin ["s3://", "bkt", "b-2", CODE_CONTAINER_INPUT_NAME] := by
  refine ⟨rfl, rfl, ?_⟩
  decide

/-- C10: running script mode with `inputs` unset uploads the source (under
the name generated with the first suffix) and then fails with the
`AttributeError` from appending to `None`: the trace holds exactly the one
upload and no submission effect, so no remote job is created. -/
theorem claim_C10 (smp : ScriptModeProcessor) (fs : FS) (bucket : String)
    (upload : String → String → String) (suffix1 suffix2 : Nat) (source : String)
    (script_name : Option String) (outputs : Option (List RawFileOutput))
    (wait logs : Bool) (job_name : Option String) (name : String)
    (hscript : ScriptModeProcessor.get_customer_script_name fs source script_name =
      Except.ok name) :
    ScriptModeProcessor.run smp fs bucket upload suffix1 suffix2 source script_name
        none outputs wait logs job_name =
      ([Effect.s3Upload source (osJoin ["s3://", bucket,
          smp.toProcessor.generate_current_job_name suffix1 job_name,
          CODE_CONTAINER_INPUT_NAME])],
       Except.error (PyError.attributeError noneAppendMsg)) := by
  simp [ScriptModeProcessor.run, hscript, ScriptModeProcessor.upload_source,
    ScriptModeProcessor.convert_source_and_add_to_inputs, uploadEffect]

/-- Witness for C10 at the concrete C9 configuration with no input list. -/
theorem claim_C10_witness :
    ScriptModeProcessor.run c9smp c9fs "bkt" c9upload 1 2 "script.py" none none none
        false false none =
      ([Effect.s3Upload "script.py" (osJoin ["s3://", "bkt",
          c9smp.toProcessor.generate_current_job_name 1 none,
          CODE_CONTAINER_INPUT_NAME])],
       Except.error (PyError.attributeError noneAppendMsg)) :=
  claim_C10 c9smp c9fs "bkt" c9upload 1 2 "script.py" none none false false none
    "script.py" rfl
